import Mathlib

/-!
# Verification of the Avelero test-data generators

Shallow embedding of the two CSV test-data generator scripts
(`scripts/generate-test-data.py` and `scripts/generate_test_csvs.py`) and
proofs about the row-synthesis logic.

Python's `random` module is modelled as a deterministic stream of raw draws
(`stream : Nat → Nat`): `random.random()` yields `k / 2^53` for a raw draw
`k` (as in CPython, which produces floats `getrandbits(53) / 2^53`), and
comparisons `random.random() < p` for a decimal literal `p = num/den` are
represented exactly by cross-multiplication over the denominator `2^53`.
The seeded generator state (`random.seed(s)`) is modelled by an explicit
pseudo-random stream derived from the seed; all universally quantified
theorems below quantify over arbitrary streams, hence over every seed.
-/

namespace Avelero

/-- State of the global `random` module plus the generator's identifier
pools (`self.generated_upids` / `self.generated_skus`).  Python sets of
strings are modelled as insertion-ordered duplicate-free lists. -/
structure GenState where
  stream : Nat → Nat
  pos : Nat
  upids : List String
  skus : List String

/-- Consume one raw draw from the stream. -/
def nextNat (s : GenState) : Nat × GenState :=
  (s.stream s.pos, { s with pos := s.pos + 1 })

/-- Model of `random.random()`: a draw `k` with `0 ≤ k < 2^53`, denoting the
float `k / 2^53`. -/
def randFloat (s : GenState) : Nat × GenState :=
  let r := nextNat s
  (r.1 % 2 ^ 53, r.2)

/-- Model of the comparison `random.random() < num/den` for the draw `k`
denoting `k / 2^53`: exactly `k / 2^53 < num / den`. -/
def floatLt (k num den : Nat) : Bool := k * den < num * 2 ^ 53

/-- Model of the comparison `random.random() > num/den` for the draw `k`:
exactly `k / 2^53 > num / den`. -/
def floatGt (k num den : Nat) : Bool := num * 2 ^ 53 < k * den

/-- Model of `random.randint(a, b)`: an integer in `[a, b]`. -/
def pyRandint (a b : Nat) (s : GenState) : Nat × GenState :=
  let r := nextNat s
  (a + r.1 % (b - a + 1), r.2)

/-- Model of `random.choice(l)` on a nonempty list: pick the element whose
index is determined by the draw. -/
def pyChoice {α : Type} [Inhabited α] (l : List α) (s : GenState) : α × GenState :=
  let r := nextNat s
  (l.getD (r.1 % l.length) default, r.2)

/-- Model of `random.sample(l, k)`: `k` distinct elements of `l` (for
`k ≤ l.length` and duplicate-free `l`), selected by one draw. -/
def pySample {α : Type} (l : List α) (k : Nat) (s : GenState) : List α × GenState :=
  let r := nextNat s
  ((l.rotate (r.1 % (l.length + 1))).take k, r.2)

/-- Lower-casing of an ASCII string (model of Python `str.lower`). -/
def strLower (s : String) : String := String.mk (s.data.map Char.toLower)

/-- Value of a decimal digit character. -/
def digitVal (c : Char) : Nat := c.toNat - '0'.toNat

/-- Accumulate decimal digits into a number. -/
def natOfChars : List Char → Nat → Nat
  | [], acc => acc
  | c :: cs, acc => natOfChars cs (acc * 10 + digitVal c)

/-- Numeric value of a decimal-digit string; `0` on the empty string.
Used to read back the percentage fields of an emitted record. -/
def strToNat (s : String) : Nat := natOfChars s.data 0

/-- The scenarios accepted by `generate-test-data.py` (`--scenario`). -/
inductive Scenario where
  | valid
  | duplicates
  | missing_fields
  | invalid_formats
  | mixed
deriving DecidableEq, Repr

/-- The per-row error kinds (`error_type` strings `"duplicate"`,
`"missing"`, `"invalid"`; `none` models Python `None`). -/
inductive ErrKind where
  | duplicate
  | missing
  | invalid
deriving DecidableEq, Repr, Inhabited

/-- The 19 field values of one generated record, in the order of the dict
literal returned by `TestDataGenerator.generate_row` (and of
`generate_base_row` in `generate_test_csvs.py`).  All values are the
strings that end up in the CSV cell (integers rendered in decimal,
omitted values as the empty string). -/
structure Fields where
  product_name : String
  upid : String
  sku : String
  description : String
  category_name : String
  season : String
  primary_image_url : String
  color_name : String
  size_name : String
  product_image_url : String
  material_1_name : String
  material_1_percentage : String
  material_2_name : String
  material_2_percentage : String
  material_3_name : String
  material_3_percentage : String
  care_codes : String
  eco_claims : String
  environment_score : String
deriving DecidableEq, Repr

/-- Sum of the numeric material-percentage cells of a record: non-empty
cells are decimal renderings of the generated integers, and empty
(padding) cells contribute 0. -/
def rowPercSum (f : Fields) : Nat :=
  strToNat f.material_1_percentage + strToNat f.material_2_percentage +
    strToNat f.material_3_percentage

/-- A record as an ordered association list of (field name, value), the
shape of the Python dict handed to `csv.DictWriter`. -/
abbrev Row := List (String × String)

/-- The dict literal of `generate_row` (its 19 keys in source order). -/
def mkRow (f : Fields) : Row :=
  [("product_name", f.product_name),
   ("upid", f.upid),
   ("sku", f.sku),
   ("description", f.description),
   ("category_name", f.category_name),
   ("season", f.season),
   ("primary_image_url", f.primary_image_url),
   ("color_name", f.color_name),
   ("size_name", f.size_name),
   ("product_image_url", f.product_image_url),
   ("material_1_name", f.material_1_name),
   ("material_1_percentage", f.material_1_percentage),
   ("material_2_name", f.material_2_name),
   ("material_2_percentage", f.material_2_percentage),
   ("material_3_name", f.material_3_name),
   ("material_3_percentage", f.material_3_percentage),
   ("care_codes", f.care_codes),
   ("eco_claims", f.eco_claims),
   ("environment_score", f.environment_score)]

namespace GenData

/-- `PRODUCT_TYPES` (generate-test-data.py). -/
def PRODUCT_TYPES : List String :=
  ["T-Shirt", "Polo Shirt", "Dress Shirt", "Sweater", "Hoodie",
   "Jeans", "Chinos", "Shorts", "Dress Pants", "Joggers",
   "Jacket", "Blazer", "Coat", "Vest", "Parka",
   "Dress", "Skirt", "Blouse", "Cardigan", "Tank Top"]

/-- `PRODUCT_STYLES`. -/
def PRODUCT_STYLES : List String :=
  ["Classic", "Slim Fit", "Regular Fit", "Oversized", "Fitted",
   "Vintage", "Modern", "Casual", "Formal", "Athletic",
   "Premium", "Essential", "Signature", "Limited Edition", "Heritage"]

/-- `PRODUCT_MATERIALS_PRIMARY`. -/
def PRODUCT_MATERIALS_PRIMARY : List String :=
  ["Cotton", "Polyester", "Wool", "Linen", "Silk",
   "Denim", "Leather", "Suede", "Cashmere", "Fleece"]

/-- `COLORS`. -/
def COLORS : List String :=
  ["Black", "White", "Gray", "Navy Blue", "Red",
   "Green", "Blue", "Yellow", "Orange", "Purple",
   "Pink", "Brown", "Beige", "Charcoal", "Olive",
   "Burgundy", "Teal", "Mint Green", "Sky Blue", "Coral"]

/-- `SIZES`. -/
def SIZES : List String := ["XS", "S", "M", "L", "XL", "2XL", "3XL"]

/-- `CATEGORIES`. -/
def CATEGORIES : List String :=
  ["T-Shirts", "Shirts", "Pants", "Outerwear", "Dresses",
   "Knitwear", "Activewear", "Accessories", "Footwear"]

/-- `SEASONS`. -/
def SEASONS : List String :=
  ["Spring 2024", "Summer 2024", "Fall 2024", "Winter 2024",
   "Spring/Summer 2024", "Fall/Winter 2024", "SS24", "FW24", "AW24"]

/-- `MATERIALS` (lines 65-78): a flat Python list whose 18 elements are
all (name, percentage) 2-tuples — entries such as `("Cotton", 65)` and
`("Polyester", 35)` are separate elements, not nested combinations. -/
def MATERIALS : List (String × Nat) :=
  [("Cotton", 100),
   ("Organic Cotton", 100),
   ("Polyester", 100),
   ("Recycled Polyester", 100),
   ("Wool", 100),
   ("Merino Wool", 100),
   ("Cotton", 65), ("Polyester", 35),
   ("Cotton", 95), ("Elastane", 5),
   ("Polyester", 88), ("Elastane", 12),
   ("Wool", 80), ("Nylon", 20),
   ("Linen", 70), ("Cotton", 30),
   ("Viscose", 60), ("Polyester", 40)]

/-- `CARE_CODES`. -/
def CARE_CODES : List String :=
  ["MACHINE_WASH", "HAND_WASH", "DRY_CLEAN", "TUMBLE_DRY",
   "DO_NOT_BLEACH", "IRON_LOW_HEAT", "DO_NOT_IRON"]

/-- `ECO_CLAIMS`. -/
def ECO_CLAIMS : List String :=
  ["ORGANIC", "RECYCLED", "CARBON_NEUTRAL", "GOTS_CERTIFIED",
   "FAIR_TRADE", "OEKO_TEX", "BLUESIGN", "CRADLE_TO_CRADLE"]

/-- Add a string to a modelled Python set (no-op when already present). -/
def insertStr (x : String) (l : List String) : List String :=
  if x ∈ l then l else l ++ [x]

/-- `TestDataGenerator.generate_upid`.  The fresh branch builds
`f"UPID-{random.randint(100000, 999999):06d}"`; the drawn number always
has six digits, so the `:06d` padding is the identity. -/
def generate_upid (allow_duplicate : Bool) (s : GenState) : String × GenState :=
  if allow_duplicate && !s.upids.isEmpty then
    let r := randFloat s
    if floatLt r.1 3 10 then
      pyChoice r.2.upids r.2
    else
      let n := pyRandint 100000 999999 r.2
      let upid := "UPID-" ++ toString n.1
      (upid, { n.2 with upids := insertStr upid n.2.upids })
  else
    let n := pyRandint 100000 999999 s
    let upid := "UPID-" ++ toString n.1
    (upid, { n.2 with upids := insertStr upid n.2.upids })

/-- `TestDataGenerator.generate_sku`:
`f"SKU-{random.choice(['TSH', 'PNT', 'JKT', 'DRS'])}-{random.randint(10000, 99999)}"`. -/
def generate_sku (allow_duplicate : Bool) (s : GenState) : String × GenState :=
  if allow_duplicate && !s.skus.isEmpty then
    let r := randFloat s
    if floatLt r.1 3 10 then
      pyChoice r.2.skus r.2
    else
      let p := pyChoice ["TSH", "PNT", "JKT", "DRS"] r.2
      let n := pyRandint 10000 99999 p.2
      let sku := "SKU-" ++ p.1 ++ "-" ++ toString n.1
      (sku, { n.2 with skus := insertStr sku n.2.skus })
  else
    let p := pyChoice ["TSH", "PNT", "JKT", "DRS"] s
    let n := pyRandint 10000 99999 p.2
    let sku := "SKU-" ++ p.1 ++ "-" ++ toString n.1
    (sku, { n.2 with skus := insertStr sku n.2.skus })

/-- `TestDataGenerator.generate_product_name`. -/
def generate_product_name (invalid : Bool) (s : GenState) : String × GenState :=
  if invalid then
    let e := pyChoice ["too_long", "empty", "special_chars"] s
    if e.1 = "too_long" then (String.mk (List.replicate 150 'A'), e.2)
    else if e.1 = "empty" then ("", e.2)
    else ("Product@#$%^&*()", e.2)
  else
    let style := pyChoice PRODUCT_STYLES s
    let ptype := pyChoice PRODUCT_TYPES style.2
    let material := pyChoice PRODUCT_MATERIALS_PRIMARY ptype.2
    pyChoice
      [style.1 ++ " " ++ ptype.1,
       material.1 ++ " " ++ ptype.1,
       style.1 ++ " " ++ material.1 ++ " " ++ ptype.1,
       ptype.1] material.2

/-- The five description templates (lines 175-181) as functions of the
`.format` arguments (product, material, style, season). -/
def descTemplates : List (String → String → String → String → String) :=
  [fun product material _ _ =>
    "A comfortable and stylish " ++ product ++
      " perfect for everyday wear. Made with high-quality " ++ material ++ ".",
   fun product material style _ =>
    "Discover the " ++ style ++ " " ++ product ++ " crafted from premium " ++
      material ++ ". Ideal for any occasion.",
   fun product _ style _ =>
    "Elevate your wardrobe with this " ++ style ++ " " ++ product ++
      ". Features exceptional quality and durability.",
   fun product material _ _ =>
    "Classic " ++ product ++ " design meets modern comfort. Made from sustainable " ++
      material ++ ".",
   fun product _ _ season =>
    "The perfect " ++ product ++ " for the " ++ season ++
      " season. Combines style with functionality."]

/-- `TestDataGenerator.generate_description`.  `.format` keyword arguments
are drawn in source order (product, material, style, season) after the
template has been chosen. -/
def generate_description (invalid : Bool) (s : GenState) : String × GenState :=
  if invalid then (String.mk (List.replicate 2500 'D'), s)
  else
    let t := pyChoice descTemplates s
    let product := pyChoice PRODUCT_TYPES t.2
    let material := pyChoice PRODUCT_MATERIALS_PRIMARY product.2
    let style := pyChoice PRODUCT_STYLES material.2
    let season := pyChoice ["spring", "summer", "fall", "winter"] style.2
    (t.1 (strLower product.1) (strLower material.1) (strLower style.1) season.1, season.2)

/-- `TestDataGenerator.generate_url`; the filename's `randint` is drawn
before the domain's `choice`. -/
def generate_url (invalid : Bool) (s : GenState) : String × GenState :=
  if invalid then ("not-a-valid-url", s)
  else
    let n := pyRandint 1000 9999 s
    let filename := "product-" ++ toString n.1 ++ ".jpg"
    let d := pyChoice ["cdn.example.com", "images.product-store.com",
                       "assets.fashion-brand.com"] n.2
    ("https://" ++ d.1 ++ "/products/" ++ filename, d.2)

/-- Model of `isinstance(material_combo, tuple) and len(material_combo) == 2`
(line 216).  Every element of `MATERIALS` is a (name, percentage) 2-tuple,
so on this table the test is identically true. -/
def isPair2 (_m : String × Nat) : Bool := true

/-- The `else` branch of `generate_materials` (lines 220-235): sample up to
three entries and normalize the percentages to sum to 100, adjusting the
last one.  (Division is Python `int((p / total) * 100)`; for the
non-negative values involved this is the floor, and the adjusted last
percentage is never negative, so `Nat` arithmetic agrees.) -/
def generate_materials_multi (s : GenState) : (List String × List Nat) × GenState :=
  let num := pyChoice [1, 2, 3] s
  let selected := pySample (MATERIALS.filter isPair2) (min num.1 MATERIALS.length) num.2
  let materials := (selected.1.take num.1).map Prod.fst
  let percentages := (selected.1.take num.1).map Prod.snd
  let total := percentages.sum
  if total > 0 then
    let normalized := percentages.map (fun p => p * 100 / total)
    let adjusted := normalized.take (normalized.length - 1) ++
      [100 - (normalized.take (normalized.length - 1)).sum]
    ((materials, adjusted), selected.2)
  else
    ((materials, percentages), selected.2)

/-- `TestDataGenerator.generate_materials`. -/
def generate_materials (invalid : Bool) (s : GenState) :
    (List String × List Nat) × GenState :=
  if invalid then ((["Cotton", "Polyester"], [65, 50]), s)
  else
    let combo := pyChoice MATERIALS s
    if isPair2 combo.1 then
      (([combo.1.1], [combo.1.2]), combo.2)
    else
      generate_materials_multi combo.2

/-- Lines 239-254 of `generate_row`: the per-row error disposition, a
`should_have_error` boolean and an `error_type` kind depending on the
scenario.  For `valid` neither variable is reassigned.  (The boolean is
computed but never read again afterwards; only `error_type` drives the
rest of the row.) -/
def errorDisposition (scenario : Scenario) (row_number : Nat) (s : GenState) :
    (Bool × Option ErrKind) × GenState :=
  match scenario with
  | .valid => ((false, none), s)
  | .duplicates => ((decide (row_number > 10), some .duplicate), s)
  | .missing_fields =>
    let r := randFloat s
    ((floatLt r.1 2 10, some .missing), r.2)
  | .invalid_formats =>
    let r := randFloat s
    ((floatLt r.1 2 10, some .invalid), r.2)
  | .mixed =>
    let r := randFloat s
    let c := pyChoice [ErrKind.duplicate, ErrKind.missing, ErrKind.invalid] r.2
    ((floatLt r.1 1 10, some c.1), c.2)

/-- Lines 256-262: UPID and SKU.  Under the `missing` kind a draw decides
(at 50%) whether both are emitted empty; otherwise both are generated with
`allow_duplicate` set when the kind is `duplicate`.  `and` short-circuits,
so the 50% draw happens only when the kind is `missing`. -/
def genUpidSku (et : Option ErrKind) (s : GenState) :
    (String × String) × GenState :=
  let both := fun (st : GenState) =>
    let u := generate_upid (decide (et = some .duplicate)) st
    let k := generate_sku (decide (et = some .duplicate)) u.2
    ((u.1, k.1), k.2)
  if et = some ErrKind.missing then
    let r := randFloat s
    if floatLt r.1 5 10 then (("", ""), r.2) else both r.2
  else both s

/-- Lines 264-268: the product name.  Under `missing` a 30% draw empties
it; otherwise `generate_product_name` is called with
`invalid=(error_type == "invalid" and random.random() < 0.3)` (the inner
draw happens only when the kind is `invalid`). -/
def genName (et : Option ErrKind) (s : GenState) : String × GenState :=
  let callIt := fun (st : GenState) =>
    if et = some ErrKind.invalid then
      let r := randFloat st
      generate_product_name (floatLt r.1 3 10) r.2
    else generate_product_name false st
  if et = some ErrKind.missing then
    let r := randFloat s
    if floatLt r.1 3 10 then ("", r.2) else callIt r.2
  else callIt s

/-- An `invalid=(error_type == "invalid" and random.random() < num/den)`
argument followed by a call of `f`: the draw happens only under the
`invalid` kind. -/
def invalidArgCall (et : Option ErrKind) (num den : Nat)
    (f : Bool → GenState → String × GenState) (s : GenState) : String × GenState :=
  if et = some ErrKind.invalid then
    let r := randFloat s
    f (floatLt r.1 num den) r.2
  else f false s

/-- Line 283: the materials call with
`invalid=(error_type == "invalid" and random.random() < 0.15)`; the draw
happens only under the `invalid` kind. -/
def genMaterials (et : Option ErrKind) (s : GenState) :
    (List String × List Nat) × GenState :=
  if et = some ErrKind.invalid then
    let r := randFloat s
    generate_materials (floatLt r.1 15 100) r.2
  else generate_materials false s

/-- `TestDataGenerator.generate_row` (lines 237-319), producing the field
values bound to the local variables of the Python function; the returned
dict is `mkRow` of these fields.  Draws are consumed in exactly the
source's evaluation order, including conditional-expression and
short-circuit evaluation. -/
def generate_row_fields (scenario : Scenario) (row_number : Nat) (s0 : GenState) :
    Fields × GenState :=
  let d := errorDisposition scenario row_number s0
  let et := d.1.2
  let us := genUpidSku et d.2
  let pn := genName et us.2
  -- include_optional = random.random() < 0.5 or error_type == "invalid"
  let ro := randFloat pn.2
  let include_optional := floatLt ro.1 5 10 || decide (et = some ErrKind.invalid)
  let desc := if include_optional then invalidArgCall et 2 10 generate_description ro.2
              else ("", ro.2)
  let cat := if include_optional then pyChoice CATEGORIES desc.2 else ("", desc.2)
  let sea := if include_optional then pyChoice SEASONS cat.2 else ("", cat.2)
  let piu := if include_optional then invalidArgCall et 2 10 generate_url sea.2
             else ("", sea.2)
  -- color/size: `random.choice(...) if random.random() < 0.7 else ""`
  let rc := randFloat piu.2
  let color := if floatLt rc.1 7 10 then pyChoice COLORS rc.2 else ("", rc.2)
  let rs := randFloat color.2
  let size := if floatLt rs.1 7 10 then pyChoice SIZES rs.2 else ("", rs.2)
  -- product_image_url: generated only when a 30% draw succeeds
  let rp := randFloat size.2
  let piu2 := if floatLt rp.1 3 10 then invalidArgCall et 2 10 generate_url rp.2
              else ("", rp.2)
  let mats := genMaterials et piu2.2
  -- the while-loop pads both lists with "" up to length 3; the dict then
  -- reads indices 0..2, which `getD _ ""` reproduces
  let matName := fun (i : Nat) => mats.1.1.getD i ""
  let matPerc := fun (i : Nat) => (mats.1.2.map (fun p => toString p)).getD i ""
  -- care codes: num = randint(1,4) if random() < 0.6 else 0, then sample
  let rcc := randFloat mats.2
  let ncc := if floatLt rcc.1 6 10 then pyRandint 1 4 rcc.2 else (0, rcc.2)
  let care := if ncc.1 > 0 then
                let sm := pySample CARE_CODES ncc.1 ncc.2
                (String.intercalate "," sm.1, sm.2)
              else ("", ncc.2)
  -- eco claims: num = randint(1,3) if random() < 0.4 else 0
  let rec' := randFloat care.2
  let nec := if floatLt rec'.1 4 10 then pyRandint 1 3 rec'.2 else (0, rec'.2)
  let eco := if nec.1 > 0 then
               let sm := pySample ECO_CLAIMS nec.1 nec.2
               (String.intercalate "," sm.1, sm.2)
             else ("", nec.2)
  -- environment_score = randint(50,100) if random() < 0.5 else ""
  let re' := randFloat eco.2
  let env := if floatLt re'.1 5 10 then
               let n := pyRandint 50 100 re'.2
               (toString n.1, n.2)
             else ("", re'.2)
  ({ product_name := pn.1
     upid := us.1.1
     sku := us.1.2
     description := desc.1
     category_name := cat.1
     season := sea.1
     primary_image_url := piu.1
     color_name := color.1
     size_name := size.1
     product_image_url := piu2.1
     material_1_name := matName 0
     material_1_percentage := matPerc 0
     material_2_name := matName 1
     material_2_percentage := matPerc 1
     material_3_name := matName 2
     material_3_percentage := matPerc 2
     care_codes := care.1
     eco_claims := eco.1
     environment_score := env.1 }, env.2)

/-- `generate_row` as the Python caller sees it: the returned dict. -/
def generate_row (scenario : Scenario) (row_number : Nat) (s : GenState) :
    Row × GenState :=
  let f := generate_row_fields scenario row_number s
  (mkRow f.1, f.2)

/-- The loop of `TestDataGenerator.generate`, collecting the rows produced
for row numbers `row_number, row_number + 1, ...` (`count` of them). -/
def genFieldsFrom (scenario : Scenario) (row_number count : Nat) (s : GenState) :
    List Fields × GenState :=
  match count with
  | 0 => ([], s)
  | k + 1 =>
    let r := generate_row_fields scenario row_number s
    let rest := genFieldsFrom scenario (row_number + 1) k r.2
    (r.1 :: rest.1, rest.2)

/-- `TestDataGenerator.generate`: rows are numbered from 1. -/
def genFields (scenario : Scenario) (rows : Nat) (s : GenState) :
    List Fields × GenState :=
  genFieldsFrom scenario 1 rows s

/-- The list of dicts accumulated by `generate` and handed to `write_csv`. -/
def generate (scenario : Scenario) (rows : Nat) (s : GenState) : List Row :=
  (genFields scenario rows s).1.map mkRow

/-- `fieldnames` of `write_csv` (lines 341-346). -/
def fieldnames : List String :=
  ["product_name", "upid", "sku", "description", "category_name", "season",
   "primary_image_url", "color_name", "size_name", "product_image_url",
   "material_1_name", "material_1_percentage", "material_2_name",
   "material_2_percentage", "material_3_name", "material_3_percentage",
   "care_codes", "eco_claims", "environment_score"]

/-- A 64-bit linear congruential generator step: stand-in for the seeded
Mersenne-Twister stream of `random.seed`. -/
def lcgNext (x : Nat) : Nat :=
  (6364136223846793005 * x + 1442695040888963407) % 2 ^ 64

/-- The deterministic raw-draw stream obtained from `random.seed(seed)`. -/
def seedStream (seed : Nat) : Nat → Nat :=
  fun i => Nat.iterate lcgNext (i + 1) seed

/-- A fresh generator state over a given raw-draw stream (pools empty,
as set up in `TestDataGenerator.__init__`). -/
def initState (stream : Nat → Nat) : GenState :=
  { stream := stream, pos := 0, upids := [], skus := [] }

/-- `self.seed = seed or random.randint(1, 1000000)` (line 116): Python
`or` takes the right operand when `seed` is `None` or the falsy `0`; the
fresh draw from the ambient (process-entropy) generator is modelled by the
raw draw `ambient`, giving `1 + ambient % 1000000` as in `pyRandint`. -/
def effectiveSeed (seed : Option Nat) (ambient : Nat) : Nat :=
  match seed with
  | some s => if s ≠ 0 then s else 1 + ambient % 1000000
  | none => 1 + ambient % 1000000

/-- One CLI run of `generate-test-data.py`: construct the generator with
the given `--seed` argument (resolving it against the ambient entropy
draw), seed the stream, and generate the record sequence. -/
def runGenerator (scenario : Scenario) (rows : Nat) (seed : Option Nat)
    (ambient : Nat) : List Row :=
  generate scenario rows (initState (seedStream (effectiveSeed seed ambient)))

end GenData

namespace GenCsvs

/-- `PRODUCT_TYPES` (generate_test_csvs.py). -/
def PRODUCT_TYPES : List String :=
  ["T-Shirt", "Polo Shirt", "Tank Top", "Hoodie", "Sweater", "Cardigan",
   "Jeans", "Pants", "Shorts", "Joggers", "Dress Pants",
   "Jacket", "Coat", "Parka", "Blazer",
   "Dress", "Skirt", "Blouse"]

/-- `MATERIALS`. -/
def MATERIALS : List String :=
  ["Cotton", "Polyester", "Wool", "Silk", "Linen", "Nylon",
   "Cashmere", "Leather", "Suede", "Denim", "Fleece",
   "Viscose", "Elastane", "Recycled Polyester"]

/-- `STYLES`. -/
def STYLES : List String :=
  ["Classic", "Vintage", "Modern", "Essential", "Premium",
   "Athletic", "Casual", "Formal", "Heritage", "Limited Edition",
   "Oversized", "Slim Fit", "Regular Fit"]

/-- `VALID_COLORS`. -/
def VALID_COLORS : List String := ["Black", "White", "Navy", "Gray", "Beige"]

/-- `VALID_SIZES`. -/
def VALID_SIZES : List String := ["XS", "S", "M", "L", "XL"]

/-- `VALID_CATEGORIES`. -/
def VALID_CATEGORIES : List String := ["Tops", "Bottoms", "Outerwear", "Dresses"]

/-- `UNMAPPED_COLORS`. -/
def UNMAPPED_COLORS : List String :=
  ["Coral", "Burgundy", "Orange", "Pink", "Navy Blue", "Light Gray",
   "Olive Green", "Mustard", "Teal", "Lavender", "Crimson", "Charcoal"]

/-- `UNMAPPED_SIZES`. -/
def UNMAPPED_SIZES : List String := ["2XL", "3XL", "XXS", "One Size"]

/-- `UNMAPPED_CATEGORIES`. -/
def UNMAPPED_CATEGORIES : List String :=
  ["Accessories", "Footwear", "T-Shirts", "Shirts", "Activewear",
   "Loungewear", "Swimwear", "Underwear"]

/-- `SEASONS`. -/
def SEASONS : List String := ["Spring 2024", "Fall 2024", "AW24", "FW24", "SS25"]

/-- `CARE_CODES`. -/
def CARE_CODES : List String :=
  ["MACHINE_WASH", "HAND_WASH", "DRY_CLEAN", "DO_NOT_BLEACH",
   "TUMBLE_DRY", "DO_NOT_IRON", "IRON_LOW_HEAT"]

/-- `ECO_CLAIMS`. -/
def ECO_CLAIMS : List String :=
  ["ORGANIC", "RECYCLED", "FAIR_TRADE", "BLUESIGN", "OEKO_TEX",
   "GOTS_CERTIFIED", "CRADLE_TO_CRADLE"]

/-- The four `DESCRIPTIONS` templates as functions of the `.format`
arguments (material, product, season, style). -/
def DESCRIPTIONS : List (String → String → String → String → String) :=
  [fun material product _ _ =>
    "Classic " ++ material ++ " " ++ product ++
      " design meets modern comfort. Made from sustainable materials.",
   fun _ product season _ =>
    "The perfect " ++ product ++ " for the " ++ season ++
      " season. Combines style with functionality.",
   fun material product _ style =>
    "Discover the " ++ style ++ " " ++ product ++ " crafted from premium " ++
      material ++ ". Ideal for any occasion.",
   fun material product _ _ =>
    "A comfortable and stylish " ++ product ++
      " perfect for everyday wear. Made with high-quality " ++ material ++ "."]

/-- `generate_upid(index)`: `f"UPID-{100000 + index}"`, no draw. -/
def generate_upid (index : Nat) : String := "UPID-" ++ toString (100000 + index)

/-- `generate_sku(index)`: random prefix, then `f"SKU-{prefix}-{10000 + index}"`. -/
def generate_sku (index : Nat) (s : GenState) : String × GenState :=
  let p := pyChoice ["TSH", "PNT", "JKT", "DRS", "SHT"] s
  ("SKU-" ++ p.1 ++ "-" ++ toString (10000 + index), p.2)

/-- `generate_product_name()`: `f"{style} {material} {product}"`. -/
def generate_product_name (s : GenState) : String × GenState :=
  let style := pyChoice STYLES s
  let material := pyChoice MATERIALS style.2
  let product := pyChoice PRODUCT_TYPES material.2
  (style.1 ++ " " ++ material.1 ++ " " ++ product.1, product.2)

/-- `generate_description()`: template choice, then `.format` keyword
arguments drawn in source order (material, product, season, style). -/
def generate_description (s : GenState) : String × GenState :=
  let t := pyChoice DESCRIPTIONS s
  let material := pyChoice MATERIALS t.2
  let product := pyChoice PRODUCT_TYPES material.2
  let season := pyChoice ["spring", "summer", "fall", "winter"] product.2
  let style := pyChoice STYLES season.2
  (t.1 (strLower material.1) (strLower product.1) season.1 (strLower style.1), style.2)

/-- `generate_image_url(product_id)`. -/
def generate_image_url (product_id : Nat) (s : GenState) : String × GenState :=
  let d := pyChoice ["cdn.example.com", "assets.fashion-brand.com",
                     "images.product-store.com"] s
  ("https://" ++ d.1 ++ "/products/product-" ++ toString product_id ++ ".jpg", d.2)

/-- `get_base_headers()`. -/
def get_base_headers : List String :=
  ["product_name", "upid", "sku", "description", "category_name", "season",
   "primary_image_url", "color_name", "size_name", "product_image_url",
   "material_1_name", "material_1_percentage", "material_2_name",
   "material_2_percentage", "material_3_name", "material_3_percentage",
   "care_codes", "eco_claims", "environment_score"]

/-- `generate_base_row(index, use_valid_values)` (lines 124-162): the nine
`include_*` draws happen first, then the dict-literal values are evaluated
in key order, consuming draws exactly where the source does (conditional
expressions evaluate their condition first; `include_images and
random.random() > 0.5` short-circuits). -/
def generate_base_row (index : Nat) (use_valid_values : Bool) (s0 : GenState) :
    Fields × GenState :=
  let colors := if use_valid_values then VALID_COLORS else UNMAPPED_COLORS
  let sizes := if use_valid_values then VALID_SIZES else UNMAPPED_SIZES
  let categories := if use_valid_values then VALID_CATEGORIES else UNMAPPED_CATEGORIES
  let r1 := randFloat s0
  let include_description := floatGt r1.1 3 10
  let r2 := randFloat r1.2
  let include_category := floatGt r2.1 2 10
  let r3 := randFloat r2.2
  let include_season := floatGt r3.1 4 10
  let r4 := randFloat r3.2
  let include_images := floatGt r4.1 5 10
  let r5 := randFloat r4.2
  let include_color := floatGt r5.1 2 10
  let r6 := randFloat r5.2
  let include_size := floatGt r6.1 2 10
  let r7 := randFloat r6.2
  let include_care := floatGt r7.1 4 10
  let r8 := randFloat r7.2
  let include_eco := floatGt r8.1 4 10
  let r9 := randFloat r8.2
  let include_env_score := floatGt r9.1 3 10
  let pn := generate_product_name r9.2
  let upid := generate_upid index
  let sku := generate_sku index pn.2
  let desc := if include_description then generate_description sku.2
              else ("", sku.2)
  let cat := if include_category then pyChoice categories desc.2 else ("", desc.2)
  let sea := if include_season then pyChoice SEASONS cat.2 else ("", cat.2)
  let piu := if include_images then generate_image_url index sea.2 else ("", sea.2)
  let color := if include_color then pyChoice colors piu.2 else ("", piu.2)
  let size := if include_size then pyChoice sizes color.2 else ("", color.2)
  let piu2 := if include_images then
                let r := randFloat size.2
                if floatGt r.1 5 10 then generate_image_url (index + 1000) r.2
                else ("", r.2)
              else ("", size.2)
  let m1n := pyChoice MATERIALS piu2.2
  let m1p := pyChoice [100, 95, 80, 70, 60, 50, 40, 35, 30] m1n.2
  let rm2n := randFloat m1p.2
  let m2n := if floatGt rm2n.1 6 10 then pyChoice MATERIALS rm2n.2 else ("", rm2n.2)
  let rm2p := randFloat m2n.2
  let m2p := if floatGt rm2p.1 6 10 then
               let c := pyChoice [20, 15, 10, 5] rm2p.2
               (toString c.1, c.2)
             else ("", rm2p.2)
  let care := if include_care then
                let n := pyRandint 1 3 m2p.2
                let sm := pySample CARE_CODES n.1 n.2
                (String.intercalate "," sm.1, sm.2)
              else ("", m2p.2)
  let eco := if include_eco then
               let n := pyRandint 1 3 care.2
               let sm := pySample ECO_CLAIMS n.1 n.2
               (String.intercalate "," sm.1, sm.2)
             else ("", care.2)
  let env := if include_env_score then
               let n := pyRandint 50 100 eco.2
               (toString n.1, n.2)
             else ("", eco.2)
  ({ product_name := pn.1
     upid := upid
     sku := sku.1
     description := desc.1
     category_name := cat.1
     season := sea.1
     primary_image_url := piu.1
     color_name := color.1
     size_name := size.1
     product_image_url := piu2.1
     material_1_name := m1n.1
     material_1_percentage := toString m1p.1
     material_2_name := m2n.1
     material_2_percentage := m2p.1
     material_3_name := ""
     material_3_percentage := ""
     care_codes := care.1
     eco_claims := eco.1
     environment_score := env.1 }, env.2)

end GenCsvs

/-! ## Helper lemmas -/

/-- The element picked by the model of `random.choice` belongs to the list. -/
theorem pyChoice_fst_mem {α : Type} [Inhabited α] (l : List α) (hl : l ≠ [])
    (s : GenState) : (pyChoice l s).1 ∈ l := by
  have hpos : 0 < l.length := List.length_pos.mpr hl
  have hlt : s.stream s.pos % l.length < l.length := Nat.mod_lt _ hpos
  show l.getD (s.stream s.pos % l.length) default ∈ l
  rw [List.getD_eq_getElem?_getD, List.getElem?_eq_getElem hlt]
  exact List.getElem_mem hlt

/-- A string of positive length is nonempty. -/
theorem str_len_pos_ne_empty {s : String} (h : 0 < s.length) : s ≠ "" := by
  intro he
  subst he
  exact absurd h (by decide)

/-- `random.choice` from a list of nonempty strings is nonempty. -/
theorem pyChoice_ne_empty {l : List String} (hl : l ≠ [])
    (h : ∀ x ∈ l, x ≠ "") (s : GenState) : (pyChoice l s).1 ≠ "" :=
  fun hc => h _ (pyChoice_fst_mem l hl s) hc

/-- Two words joined by a space form a nonempty string. -/
theorem str_space_pair_ne (a b : String) : a ++ " " ++ b ≠ "" :=
  str_len_pos_ne_empty (by
    simp only [String.length_append]
    have h1 : (" " : String).length = 1 := rfl
    omega)

/-- Three words joined by spaces form a nonempty string. -/
theorem str_space_triple_ne (a b c : String) : a ++ " " ++ b ++ " " ++ c ≠ "" :=
  str_len_pos_ne_empty (by
    simp only [String.length_append]
    have h1 : (" " : String).length = 1 := rfl
    omega)

/-- Strings starting with the literal `"UPID-"` are nonempty. -/
theorem upid_prefixed_ne_empty (b : String) : "UPID-" ++ b ≠ "" :=
  str_len_pos_ne_empty (by
    simp only [String.length_append]
    have h5 : ("UPID-" : String).length = 5 := rfl
    omega)

namespace GenData

/-- A freshly generated UPID (no duplicate resampling) is nonempty. -/
theorem generate_upid_false_ne_empty (s : GenState) :
    (generate_upid false s).1 ≠ "" := by
  show "UPID-" ++ toString (pyRandint 100000 999999 s).1 ≠ ""
  exact upid_prefixed_ne_empty _

/-- A product name generated without the invalid disposition is nonempty. -/
theorem generate_product_name_false_ne_empty (s : GenState) :
    (generate_product_name false s).1 ≠ "" := by
  apply pyChoice_ne_empty (List.cons_ne_nil _ _)
  intro x hx
  simp only [List.mem_cons, List.not_mem_nil, or_false] at hx
  rcases hx with rfl | rfl | rfl | rfl
  · exact str_space_pair_ne _ _
  · exact str_space_pair_ne _ _
  · exact str_space_triple_ne _ _ _
  · refine str_len_pos_ne_empty ?_
    have hmem := pyChoice_fst_mem PRODUCT_TYPES (by decide)
      (pyChoice PRODUCT_STYLES s).2
    have hall : ∀ y ∈ PRODUCT_TYPES, 0 < y.length := by decide
    exact hall _ hmem

/-- Every row of the `valid` scenario has a nonempty UPID and a nonempty
product name. -/
theorem valid_row_required (rn : Nat) (s : GenState) :
    ¬((generate_row_fields .valid rn s).1.upid = "" ∧
        (generate_row_fields .valid rn s).1.sku = "") ∧
      (generate_row_fields .valid rn s).1.product_name ≠ "" := by
  constructor
  · intro hc
    exact generate_upid_false_ne_empty _ hc.1
  · intro hc
    exact generate_product_name_false_ne_empty _ hc

/-- Every element of a generated batch is the output of a single
`generate_row` call at some row number and generator state. -/
theorem mem_genFieldsFrom {scenario : Scenario} {f : Fields} :
    ∀ {rn count : Nat} {s : GenState},
      f ∈ (genFieldsFrom scenario rn count s).1 →
        ∃ rn2 s2, f = (generate_row_fields scenario rn2 s2).1 := by
  intro rn count
  induction count generalizing rn with
  | zero =>
    intro s h
    simp [genFieldsFrom] at h
  | succ k ih =>
    intro s h
    simp only [genFieldsFrom, List.mem_cons] at h
    rcases h with h | h
    · exact ⟨rn, s, h⟩
    · exact ih h

/-- When the disposition is not `invalid`, the materials call is the
plain single-entry branch. -/
theorem genMaterials_not_invalid {et : Option ErrKind}
    (h : et ≠ some ErrKind.invalid) (s : GenState) :
    genMaterials et s = generate_materials false s := by
  unfold genMaterials
  rw [if_neg h]

/-- The non-invalid materials branch returns one (name, percentage) pair
from the `MATERIALS` table, and the rendered record cells carry exactly
that entry. -/
theorem genMaterials_single {et : Option ErrKind}
    (h : et ≠ some ErrKind.invalid) (s : GenState) :
    ∃ m ∈ MATERIALS,
      (genMaterials et s).1.1.getD 0 "" = m.1 ∧
      ((genMaterials et s).1.2.map (fun p => toString p)).getD 0 "" = toString m.2 ∧
      (genMaterials et s).1.1.getD 1 "" = "" ∧
      ((genMaterials et s).1.2.map (fun p => toString p)).getD 1 "" = "" ∧
      (genMaterials et s).1.1.getD 2 "" = "" ∧
      ((genMaterials et s).1.2.map (fun p => toString p)).getD 2 "" = "" ∧
      strToNat (((genMaterials et s).1.2.map (fun p => toString p)).getD 0 "") +
        strToNat (((genMaterials et s).1.2.map (fun p => toString p)).getD 1 "") +
        strToNat (((genMaterials et s).1.2.map (fun p => toString p)).getD 2 "") = m.2 := by
  rw [genMaterials_not_invalid h]
  refine ⟨(pyChoice MATERIALS s).1, pyChoice_fst_mem MATERIALS (by decide) s,
    rfl, rfl, rfl, rfl, rfl, rfl, ?_⟩
  have hrt : ∀ m ∈ MATERIALS, strToNat (toString m.2) + 0 + 0 = m.2 := by decide
  exact hrt _ (pyChoice_fst_mem MATERIALS (by decide) s)

/-- The base row of `generate_test_csvs.py` always carries a nonempty
index-derived UPID and a nonempty three-word product name. -/
theorem gencsvs_base_row_required (idx : Nat) (uv : Bool) (s : GenState) :
    ¬((GenCsvs.generate_base_row idx uv s).1.upid = "" ∧
        (GenCsvs.generate_base_row idx uv s).1.sku = "") ∧
      (GenCsvs.generate_base_row idx uv s).1.product_name ≠ "" := by
  constructor
  · intro hc
    exact upid_prefixed_ne_empty _ hc.1
  · intro hc
    exact str_space_triple_ne _ _ _ hc

/-! ## Claims -/

/-- Claim C2, counterexample: a row of the `valid` scenario (hence with no
invalid disposition) whose material composition is the single entry
`("Polyester", 35)` of the flat `MATERIALS` table — its percentages sum
to 35, not 100. -/
theorem c2_materials_sum_counterexample :
    (generate_row_fields .valid 1
        (initState (fun _ => 5404319552844601))).1.material_1_percentage = "35" ∧
    (generate_row_fields .valid 1
        (initState (fun _ => 5404319552844601))).1.material_2_percentage = "" ∧
    (generate_row_fields .valid 1
        (initState (fun _ => 5404319552844601))).1.material_3_percentage = "" ∧
    rowPercSum (generate_row_fields .valid 1
        (initState (fun _ => 5404319552844601))).1 ≠ 100 := by
  decide

/-- Claim C2 (amended): every row generated without the `invalid`
disposition carries exactly one (material name, percentage) pair, taken
verbatim from the `MATERIALS` table; slots 2 and 3 are padded empty, and
the percentages sum to that single entry's percentage (which need not be
100 — the flat table makes the multi-material normalization unreachable). -/
theorem c2_materials_single_entry (scenario : Scenario) (rn : Nat) (s : GenState)
    (h : (errorDisposition scenario rn s).1.2 ≠ some ErrKind.invalid) :
    ∃ m ∈ MATERIALS,
      (generate_row_fields scenario rn s).1.material_1_name = m.1 ∧
      (generate_row_fields scenario rn s).1.material_1_percentage = toString m.2 ∧
      (generate_row_fields scenario rn s).1.material_2_name = "" ∧
      (generate_row_fields scenario rn s).1.material_2_percentage = "" ∧
      (generate_row_fields scenario rn s).1.material_3_name = "" ∧
      (generate_row_fields scenario rn s).1.material_3_percentage = "" ∧
      rowPercSum (generate_row_fields scenario rn s).1 = m.2 :=
  genMaterials_single h _

/-- Witness for the amended claim C2 at scenario=valid, row 1, a concrete
stream. -/
theorem c2_materials_single_entry_witness :
    ∃ m ∈ MATERIALS,
      (generate_row_fields .valid 1 (initState (fun _ => 0))).1.material_1_name = m.1 ∧
      (generate_row_fields .valid 1 (initState (fun _ => 0))).1.material_1_percentage
        = toString m.2 ∧
      (generate_row_fields .valid 1 (initState (fun _ => 0))).1.material_2_name = "" ∧
      (generate_row_fields .valid 1 (initState (fun _ => 0))).1.material_2_percentage = "" ∧
      (generate_row_fields .valid 1 (initState (fun _ => 0))).1.material_3_name = "" ∧
      (generate_row_fields .valid 1 (initState (fun _ => 0))).1.material_3_percentage = "" ∧
      rowPercSum (generate_row_fields .valid 1 (initState (fun _ => 0))).1 = m.2 :=
  c2_materials_single_entry .valid 1 (initState (fun _ => 0)) (by decide)

/-- Claim C3: in the `valid` scenario no generated row has both UPID and
SKU empty and none has an empty product name — for every row count, every
stream (hence every seed) and every row; likewise for the base rows of
`generate_valid_csv` in `generate_test_csvs.py`. -/
theorem c3_valid_required_fields :
    (∀ (n : Nat) (s : GenState), ∀ f ∈ (genFields .valid n s).1,
        ¬(f.upid = "" ∧ f.sku = "") ∧ f.product_name ≠ "") ∧
    (∀ (idx : Nat) (s : GenState),
        ¬((GenCsvs.generate_base_row idx true s).1.upid = "" ∧
            (GenCsvs.generate_base_row idx true s).1.sku = "") ∧
          (GenCsvs.generate_base_row idx true s).1.product_name ≠ "") := by
  constructor
  · intro n s f hf
    obtain ⟨rn2, s2, rfl⟩ := mem_genFieldsFrom hf
    exact valid_row_required rn2 s2
  · intro idx s
    exact gencsvs_base_row_required idx true s

/-- Witness for claim C3 at one concrete generated row. -/
theorem c3_valid_required_fields_witness :
    ¬((generate_row_fields .valid 1 (initState (fun _ => 0))).1.upid = "" ∧
        (generate_row_fields .valid 1 (initState (fun _ => 0))).1.sku = "") ∧
      (generate_row_fields .valid 1 (initState (fun _ => 0))).1.product_name ≠ "" :=
  c3_valid_required_fields.1 1 (initState (fun _ => 0))
    (generate_row_fields .valid 1 (initState (fun _ => 0))).1
    (List.mem_cons_self _ _)

/-- Claim C4: the per-row error disposition.  For `duplicates` the
should-error boolean is true exactly for row numbers above 10 with kind
`duplicate` (no draw); for `missing_fields` and `invalid_formats` it is
the 20% draw (`random.random() < 0.2`) with kinds `missing` and
`invalid`; for `mixed` it is the 10% draw with the kind chosen from
the three-element list `[duplicate, missing, invalid]`. -/
theorem c4_error_disposition (rn : Nat) (s : GenState) :
    errorDisposition .valid rn s = ((false, none), s) ∧
    ((errorDisposition .duplicates rn s).1.1 = true ↔ 10 < rn) ∧
    (errorDisposition .duplicates rn s).1.2 = some ErrKind.duplicate ∧
    (errorDisposition .duplicates rn s).2 = s ∧
    errorDisposition .missing_fields rn s
      = ((floatLt (randFloat s).1 2 10, some ErrKind.missing), (randFloat s).2) ∧
    errorDisposition .invalid_formats rn s
      = ((floatLt (randFloat s).1 2 10, some ErrKind.invalid), (randFloat s).2) ∧
    (errorDisposition .mixed rn s).1.1 = floatLt (randFloat s).1 1 10 ∧
    (∃ k ∈ [ErrKind.duplicate, ErrKind.missing, ErrKind.invalid],
        (errorDisposition .mixed rn s).1.2 = some k) := by
  refine ⟨rfl, ?_, rfl, rfl, rfl, rfl, rfl, ?_⟩
  · simp [errorDisposition]
  · exact ⟨(pyChoice [ErrKind.duplicate, ErrKind.missing, ErrKind.invalid]
        (randFloat s).2).1,
      pyChoice_fst_mem _ (by decide) _, rfl⟩

/-- Claim C5, counterexample: for scenario=invalid_formats the required
artifacts do not appear for every seed and row count — with a one-row run
on a stream whose draws all miss the probability thresholds, no row gets
an over-long product name (nor an over-long description), so the claimed
conjunction fails. -/
theorem c5_invalid_artifacts_counterexample :
    ¬((∃ f ∈ (genFields .invalid_formats 1 (initState (fun _ => 2 ^ 53 - 1))).1,
          100 < f.product_name.length) ∧
      (∃ f ∈ (genFields .invalid_formats 1 (initState (fun _ => 2 ^ 53 - 1))).1,
          2000 < f.description.length) ∧
      (∃ f ∈ (genFields .invalid_formats 1 (initState (fun _ => 2 ^ 53 - 1))).1,
          rowPercSum f ≠ 100)) := by
  intro hcl
  have h1 := hcl.1
  revert h1
  decide

/-- Claim C5 (amended): for scenario=invalid_formats there exist runs
(streams/seeds) whose output contains a product name longer than 100
characters, a description longer than 2000 characters, and a material
composition summing to a value other than 100 — here all three in one
row. -/
theorem c5_invalid_artifacts_exist :
    ∃ f ∈ (genFields .invalid_formats 1 (initState (fun _ => 0))).1,
      100 < f.product_name.length ∧ 2000 < f.description.length ∧
        rowPercSum f ≠ 100 := by
  refine ⟨(generate_row_fields .invalid_formats 1 (initState (fun _ => 0))).1,
    List.mem_cons_self _ _, ?_, ?_, ?_⟩
  · have he : (generate_row_fields .invalid_formats 1
        (initState (fun _ => 0))).1.product_name
        = String.mk (List.replicate 150 'A') := rfl
    rw [he, String.length_mk, List.length_replicate]
    omega
  · have he : (generate_row_fields .invalid_formats 1
        (initState (fun _ => 0))).1.description
        = String.mk (List.replicate 2500 'D') := rfl
    rw [he, String.length_mk, List.length_replicate]
    omega
  · decide

set_option maxRecDepth 40000 in
/-- Claim C6, counterexample: for scenario=duplicates with 11 rows there
is a stream (hence a seed) on which every 30% resampling draw misses and
all fresh identifiers are distinct, so no UPID or SKU value repeats. -/
theorem c6_duplicates_counterexample :
    10 < 11 ∧
    ((genFields .duplicates 11 (initState (fun i => 2 ^ 53 - 1 - i))).1.map
        (fun f => f.upid)).Nodup ∧
    ((genFields .duplicates 11 (initState (fun i => 2 ^ 53 - 1 - i))).1.map
        (fun f => f.sku)).Nodup := by
  decide

set_option maxRecDepth 40000 in
/-- Claim C6 (amended): for scenario=duplicates with every row count
n > 10 there exist streams (seeds) on which some UPID value appears more
than once among the generated rows — on the all-zero stream the second
row resamples the first row's UPID. -/
theorem c6_duplicates_exist (n : Nat) (h : 10 < n) :
    ∃ stream : Nat → Nat,
      ¬((genFields .duplicates n (initState stream)).1.map
          (fun f => f.upid)).Nodup := by
  refine ⟨fun _ => 0, ?_⟩
  obtain ⟨m, rfl⟩ : ∃ m, n = m + 1 + 1 := ⟨n - 2, by omega⟩
  intro hnd
  simp only [genFields, genFieldsFrom, List.map_cons, List.nodup_cons,
    List.mem_cons] at hnd
  exact hnd.1 (Or.inl (by decide))

set_option maxRecDepth 40000 in
/-- Witness for the amended claim C6 at row count 11. -/
theorem c6_duplicates_exist_witness :
    ∃ stream : Nat → Nat,
      ¬((genFields .duplicates 11 (initState stream)).1.map
          (fun f => f.upid)).Nodup :=
  c6_duplicates_exist 11 (by decide)

/-- Claim C8: every record produced by the row synthesizer carries exactly
the fixed ordered set of 19 field names, for every scenario, row number
and generator state; likewise for `generate_base_row` against
`get_base_headers` in `generate_test_csvs.py`. -/
theorem c8_record_keys :
    (∀ (scenario : Scenario) (rn : Nat) (s : GenState),
        (generate_row scenario rn s).1.map Prod.fst = fieldnames) ∧
    (∀ (idx : Nat) (uv : Bool) (s : GenState),
        (mkRow (GenCsvs.generate_base_row idx uv s).1).map Prod.fst
          = GenCsvs.get_base_headers) ∧
    fieldnames.length = 19 :=
  ⟨fun _ _ _ => rfl, fun _ _ _ => rfl, rfl⟩

/-- Claim C9: passing seed 0 behaves identically to passing no seed
(Python `or` treats 0 as falsy and draws a fresh seed), and consequently
two seed-0 runs with identical arguments need not produce identical
output. -/
theorem c9_seed_zero_fallback :
    (∀ (scenario : Scenario) (rows ambient : Nat),
        runGenerator scenario rows (some 0) ambient
          = runGenerator scenario rows none ambient) ∧
    (∃ a1 a2 : Nat,
        runGenerator .valid 1 (some 0) a1 ≠ runGenerator .valid 1 (some 0) a2) := by
  constructor
  · intro scenario rows ambient
    rfl
  · exact ⟨0, 1, by decide⟩

/-- Claim C10: every element of the `MATERIALS` table is a (name,
percentage) 2-tuple, so `generate_materials` with invalid=False always
takes the isinstance branch: the result is the single chosen pair, both
returned lists have length exactly 1, and the multi-material
normalization branch is unreachable. -/
theorem c10_materials_table_single (s : GenState) :
    (∀ m ∈ MATERIALS, isPair2 m = true) ∧
    MATERIALS.length = 18 ∧
    (generate_materials false s).1
      = ([(pyChoice MATERIALS s).1.1], [(pyChoice MATERIALS s).1.2]) ∧
    (generate_materials false s).1.1.length = 1 ∧
    (generate_materials false s).1.2.length = 1 :=
  ⟨by decide, rfl, rfl, rfl, rfl⟩

/-- Witness for claim C10 at a concrete state and a concrete table entry. -/
theorem c10_materials_table_single_witness :
    isPair2 ("Cotton", 100) = true ∧
    (generate_materials false (initState (fun _ => 0))).1.1.length = 1 ∧
    (generate_materials false (initState (fun _ => 0))).1.2.length = 1 :=
  ⟨(c10_materials_table_single (initState (fun _ => 0))).1 ("Cotton", 100) (by decide),
   (c10_materials_table_single (initState (fun _ => 0))).2.2.2.1,
   (c10_materials_table_single (initState (fun _ => 0))).2.2.2.2⟩

end GenData

end Avelero
